import Mathlib

/-!
# ParcelStore over a single-table storage engine

A shallow embedding of `parcel.go`.  The store issues one SQL statement per
operation through `database/sql`; the engine behind the handle is modelled as
an explicit state (named tables of rows), each statement of the source is a
value of `Stmt` / `Select`, and every store operation is a function from the
state before to the returned values and the state after.
-/

namespace ParcelStore

/-! ## Values, rows, tables -/

/-- A value stored in a column or bound to a statement parameter. -/
inductive Value where
  | null
  | int (i : Int)
  | text (s : String)
deriving DecidableEq, Repr

/-- Modelled from the spec: the table schema is not part of the sources; the
five columns `number, client, status, address, created_at`, in this order, are
the ones of the table in section 6 and of the `Scan` calls of `parcel.go`. -/
inductive Col where
  | number
  | client
  | status
  | address
  | created_at
deriving DecidableEq, Repr

/-- One stored row: a value for each of the five columns. -/
structure Row where
  number : Value
  client : Value
  status : Value
  address : Value
  created_at : Value
deriving DecidableEq, Repr

/-- A table is the sequence of its rows in storage order. -/
abbrev Table := List Row

/-- The engine state behind the `*sql.DB` handle: the tables by name. -/
abbrev DB := String → Option Table

/-- Errors that reach the store. -/
inductive Error where
  | errNoRows
  | noSuchTable (name : String)
  | convertNull (dest : String)
  | convertText (src : String)
deriving DecidableEq, Repr

/-- The line that `fmt.Println(err)` writes for an error, up to the wording of
the driver. -/
def Error.text : Error → String
  | .errNoRows => "sql: no rows in result set"
  | .noSuchTable name => "no such table: " ++ name
  | .convertNull dest => "converting NULL to " ++ dest ++ " is unsupported"
  | .convertText src => "strconv.ParseInt: parsing " ++ src ++ ": invalid syntax"

/-- Modelled from the spec: the `Parcel` struct is declared outside the
sources; its fields are the five the store reads and writes, with Go zero
values as defaults. -/
structure Parcel where
  Number : Int := 0
  Client : Int := 0
  Status : String := ""
  Address : String := ""
  CreatedAt : String := ""
deriving DecidableEq, Repr

/-- Modelled from the spec: the status constant `registered`, declared outside
the sources. -/
def ParcelStatusRegistered : String := "registered"

/-- Modelled from the spec: the status constant `sent`, declared outside the
sources. -/
def ParcelStatusSent : String := "sent"

/-- What the process has around the store: the engine state and the lines
written to standard output. -/
structure World where
  db : DB
  stdout : List String

/-! ## The engine: statements and their execution -/

/-- Reading a column of a row. -/
def Row.get (r : Row) : Col → Value
  | .number => r.number
  | .client => r.client
  | .status => r.status
  | .address => r.address
  | .created_at => r.created_at

/-- Overwriting a column of a row. -/
def Row.set (r : Row) (c : Col) (v : Value) : Row :=
  match c with
  | .number => { r with number := v }
  | .client => { r with client := v }
  | .status => { r with status := v }
  | .address => { r with address := v }
  | .created_at => { r with created_at := v }

/-- SQL `=` in a `WHERE` clause: true only for two equal non-NULL values. -/
def Value.sqlEq : Value → Value → Bool
  | .int a, .int b => decide (a = b)
  | .text a, .text b => decide (a = b)
  | _, _ => false

/-- The three statement shapes that `Exec` receives in `parcel.go`. -/
inductive Stmt where
  /-- `INSERT INTO table (client, status, address, created_at) VALUES (...)`. -/
  | insert (table : String) (client status address created_at : Value)
  /-- `UPDATE table SET col = v WHERE cond = w`. -/
  | update (table : String) (col : Col) (v : Value) (cond : Col) (w : Value)
  /-- `DELETE FROM table WHERE cond = w`. -/
  | delete (table : String) (cond : Col) (w : Value)

/-- The query shape of `parcel.go`: `SELECT * FROM table WHERE cond = w`. -/
structure Select where
  table : String
  cond : Col
  w : Value

/-- The result of a successful `Exec`. -/
structure Result where
  lastInsertId : Int
  rowsAffected : Nat
deriving DecidableEq, Repr

/-- The largest integer key in use, `0` for a table without one. -/
def maxRowid : Table → Int
  | [] => 0
  | r :: rest =>
    match r.number with
    | .int i => max i (maxRowid rest)
    | _ => maxRowid rest

/-- Replacing one table of the state. -/
def DB.put (db : DB) (name : String) (t : Table) : DB :=
  fun n => if n = name then some t else db n

/-- Running a statement: it fails when the table does not exist, otherwise it
returns the result and the state after. -/
def Exec (db : DB) : Stmt → Except Error (Result × DB)
  | .insert table client status address created_at =>
    match db table with
    | none => .error (.noSuchTable table)
    | some t =>
      let id := maxRowid t + 1
      .ok (⟨id, 1⟩, db.put table (t ++ [⟨.int id, client, status, address, created_at⟩]))
  | .update table col v cond w =>
    match db table with
    | none => .error (.noSuchTable table)
    | some t =>
      .ok (⟨0, (t.filter (fun r => (r.get cond).sqlEq w)).length⟩,
        db.put table (t.map (fun r => if (r.get cond).sqlEq w then r.set col v else r)))
  | .delete table cond w =>
    match db table with
    | none => .error (.noSuchTable table)
    | some t =>
      .ok (⟨0, (t.filter (fun r => (r.get cond).sqlEq w)).length⟩,
        db.put table (t.filter (fun r => !(r.get cond).sqlEq w)))

/-- Running a query: the matching rows in storage order. -/
def Query (db : DB) (q : Select) : Except Error (List Row) :=
  match db q.table with
  | none => .error (.noSuchTable q.table)
  | some t => .ok (t.filter (fun r => (r.get q.cond).sqlEq q.w))

/-- The call `Result.LastInsertId()`. -/
def Result.LastInsertId (res : Result) : Except Error Int :=
  .ok res.lastInsertId

/-! ## Decoding a row (`Scan`) -/

/-- The function `strconv.ParseInt(s, 10, 64)`: an optional sign, then decimal
digits, within the 64-bit range. -/
def parseInt64 (s : String) : Option Int :=
  let cs := s.toList
  let sd : Bool × List Char :=
    match cs with
    | '-' :: r => (true, r)
    | '+' :: r => (false, r)
    | r => (false, r)
  if sd.2.isEmpty || !sd.2.all Char.isDigit then none
  else
    let n : Nat := sd.2.foldl (fun a c => 10 * a + (c.toNat - 48)) 0
    let v : Int := if sd.1 then -(n : Int) else (n : Int)
    if -(2 ^ 63 : Int) ≤ v ∧ v < (2 ^ 63 : Int) then some v else none

/-- Decoding a column into an `int` destination. -/
def convertInt : Value → Except Error Int
  | .null => .error (.convertNull "int")
  | .int i => .ok i
  | .text s =>
    match parseInt64 s with
    | some i => .ok i
    | none => .error (.convertText s)

/-- Decoding a column into a `string` destination. -/
def convertString : Value → Except Error String
  | .null => .error (.convertNull "string")
  | .int i => .ok (toString i)
  | .text s => .ok s

/-- The call `Scan(&p.Number, &p.Client, &p.Status, &p.Address, &p.CreatedAt)`
on the current row: the columns are assigned left to right and the first
failing conversion stops it, leaving the earlier assignments in place. -/
def Scan (row : Row) (p : Parcel) : Parcel × Option Error :=
  match convertInt row.number with
  | .error e => (p, some e)
  | .ok number =>
    let p := { p with Number := number }
    match convertInt row.client with
    | .error e => (p, some e)
    | .ok client =>
      let p := { p with Client := client }
      match convertString row.status with
      | .error e => (p, some e)
      | .ok status =>
        let p := { p with Status := status }
        match convertString row.address with
        | .error e => (p, some e)
        | .ok address =>
          let p := { p with Address := address }
          match convertString row.created_at with
          | .error e => (p, some e)
          | .ok created => ({ p with CreatedAt := created }, none)

/-- The value `rows.Err()` inside the loop body: `Next` has just reported a
row, so the iteration has met no error. -/
def rowsErr (_pending : List Row) : Option Error := none

/-- The deferred result of `QueryRow`, then `Scan` on it: the query error if
any, `sql.ErrNoRows` when no row matches, otherwise the first row decoded. -/
def QueryRowScan (db : DB) (q : Select) (p : Parcel) : Parcel × Option Error :=
  match Query db q with
  | .error e => (p, some e)
  | .ok [] => (p, some .errNoRows)
  | .ok (row :: _) => Scan row p

/-! ## The store operations of `parcel.go` -/

/-- The method `ParcelStore.Add`. -/
def Add (w : World) (p : Parcel) : (Int × Option Error) × World :=
  match Exec w.db (.insert "parsel" (.int p.Client) (.text p.Status) (.text p.Address)
      (.text p.CreatedAt)) with
  | .error err => ((0, some err), { w with stdout := w.stdout ++ [err.text] })
  | .ok (res, db) =>
    match res.LastInsertId with
    | .error err => ((0, some err), { db := db, stdout := w.stdout ++ [err.text] })
    | .ok req => ((req, none), { w with db := db })

/-- The method `ParcelStore.Get`. -/
def Get (w : World) (number : Int) : Parcel × Option Error :=
  let p : Parcel := {}
  let res := QueryRowScan w.db ⟨"parcel", .number, .int number⟩ p
  match res.2 with
  | some err => (res.1, some err)
  | none => (res.1, none)

/-- The loop of `GetByClient`: for each row, decode it into a fresh parcel,
overwrite the decode error with `rows.Err()`, return on a non-nil error;
nothing is appended to `res`. -/
def GetByClient.loop (res : List Parcel) : List Row → List Parcel × Option Error
  | [] => (res, none)
  | row :: rest =>
    let p : Parcel := {}
    let _err := (Scan row p).2
    let err := rowsErr rest
    match err with
    | some e => ([], some e)
    | none => GetByClient.loop res rest

/-- The method `ParcelStore.GetByClient`. -/
def GetByClient (w : World) (client : Int) : List Parcel × Option Error :=
  match Query w.db ⟨"parcel", .client, .int client⟩ with
  | .error err => ([], some err)
  | .ok rows => GetByClient.loop [] rows

/-- The method `ParcelStore.SetStatus`. -/
def SetStatus (w : World) (number : Int) (status : String) : Option Error × World :=
  match Exec w.db (.update "parcel" .status (.text status) .number (.int number)) with
  | .error err => (none, { w with stdout := w.stdout ++ [err.text] })
  | .ok (_, db) => (none, { w with db := db })

/-- The method `ParcelStore.SetAddress`; the statement does not mention
`number`. -/
def SetAddress (w : World) (_number : Int) (address : String) : Option Error × World :=
  match Exec w.db (.update "parcel" .address (.text address) .status
      (.text ParcelStatusRegistered)) with
  | .error err => (none, { w with stdout := w.stdout ++ [err.text] })
  | .ok (_, db) => (none, { w with db := db })

/-- The method `ParcelStore.Delete`; the statement does not mention `number`. -/
def Delete (w : World) (_number : Int) : Option Error × World :=
  match Exec w.db (.delete "parcel" .status (.text ParcelStatusRegistered)) with
  | .error err => (none, { w with stdout := w.stdout ++ [err.text] })
  | .ok (_, db) => (none, { w with db := db })

/-! ## Observing a table -/

/-- The row stored under a key: the first row whose `number` equals it. -/
def lookup (t : Table) (number : Int) : Option Row :=
  t.find? (fun r => r.number.sqlEq (.int number))

/-- The rows stored under any other key. -/
def others (t : Table) (number : Int) : List Row :=
  t.filter (fun r => !r.number.sqlEq (.int number))

/-- The primary-key constraint: no two rows share a `number`. -/
def PrimaryKey (t : Table) : Prop :=
  (t.map Row.number).Nodup

instance (t : Table) : Decidable (PrimaryKey t) := by
  unfold PrimaryKey; infer_instance

/-- The rewrite that `SetStatus` applies to every row of `parcel`. -/
def statusRewrite (number : Int) (status : String) (r : Row) : Row :=
  if r.number.sqlEq (.int number) then { r with status := .text status } else r

/-- The rewrite that `SetAddress` applies to every row of `parcel`. -/
def addressRewrite (address : String) (r : Row) : Row :=
  if r.status.sqlEq (.text ParcelStatusRegistered) then { r with address := .text address } else r

/-! ## Sample states -/

/-- A row in status `registered`. -/
def registeredRow (number client : Int) (address : String) : Row :=
  ⟨.int number, .int client, .text ParcelStatusRegistered, .text address,
    .text "2024-01-01T00:00:00Z"⟩

/-- A row in status `sent`. -/
def sentRow (number client : Int) (address : String) : Row :=
  ⟨.int number, .int client, .text ParcelStatusSent, .text address,
    .text "2024-01-01T00:00:00Z"⟩

/-- A state whose only table is `parcel`, holding the given rows. -/
def worldOf (t : Table) : World :=
  ⟨fun n => if n = "parcel" then some t else none, []⟩

/-- A state with the two tables `parcel` and `parsel`, both empty. -/
def worldBoth : World :=
  ⟨fun n => if n = "parcel" then some [] else if n = "parsel" then some [] else none, []⟩

/-- A state without any table. -/
def worldEmpty : World :=
  ⟨fun _ => none, []⟩

/-- A table with a `sent` row under key 1 and a `registered` row under key 2. -/
def mixedTable : Table :=
  [sentRow 1 7 "a", registeredRow 2 7 "b"]

/-- A table with two `registered` rows of different clients and a `sent` row. -/
def registeredTable : Table :=
  [registeredRow 1 7 "a", registeredRow 2 8 "b", sentRow 3 9 "c"]

/-- A table whose only row has NULL in its status column. -/
def nullStatusTable : Table :=
  [⟨.int 1, .int 7, .null, .text "a", .text "2024-01-01T00:00:00Z"⟩]

/-- The parcel of the test suite and of the scenario of the specification. -/
def testParcel : Parcel :=
  ⟨0, 1000, ParcelStatusRegistered, "test", "2024-01-01T00:00:00Z"⟩

/-! ## Lemmas on the engine -/

theorem sqlEq_int_iff (v : Value) (n : Int) : v.sqlEq (.int n) = true ↔ v = .int n := by
  cases v <;> simp [Value.sqlEq]

theorem sqlEq_text_iff (v : Value) (s : String) : v.sqlEq (.text s) = true ↔ v = .text s := by
  cases v <;> simp [Value.sqlEq]

theorem put_same (db : DB) (name : String) (t : Table) : db.put name t name = some t := by
  simp [DB.put]

theorem lookup_eq_some {t : Table} {number : Int} {r : Row} (h : lookup t number = some r) :
    r ∈ t ∧ r.number = .int number := by
  unfold lookup at h
  have hp := List.find?_some h
  exact ⟨List.mem_of_find?_eq_some h, (sqlEq_int_iff r.number number).1 hp⟩

theorem lookup_eq_none {t : Table} {number : Int} :
    lookup t number = none ↔ ∀ r ∈ t, r.number ≠ .int number := by
  unfold lookup
  rw [List.find?_eq_none]
  constructor
  · intro h r hr hn
    exact h r hr ((sqlEq_int_iff _ _).2 hn)
  · intro h r hr hn
    exact h r hr ((sqlEq_int_iff _ _).1 hn)

/-- A row-wise rewrite that keeps every key maps the row under a key to its
image. -/
theorem lookup_map (f : Row → Row) (hf : ∀ r, (f r).number = r.number) (t : Table)
    (number : Int) : lookup (t.map f) number = (lookup t number).map f := by
  induction t with
  | nil => rfl
  | cons x xs ih =>
    unfold lookup at ih ⊢
    simp only [List.map_cons, List.find?_cons, hf]
    cases hx : x.number.sqlEq (.int number)
    · simpa using ih
    · simp

/-- A rewrite of the rows under one key leaves the rows under the other keys
as they were. -/
theorem others_map (f : Row → Row) (number : Int)
    (hf : ∀ r, (f r).number = r.number)
    (hid : ∀ r, r.number.sqlEq (.int number) = false → f r = r) (t : Table) :
    others (t.map f) number = others t number := by
  induction t with
  | nil => rfl
  | cons x xs ih =>
    unfold others at ih ⊢
    simp only [List.map_cons, List.filter_cons, hf]
    cases hx : x.number.sqlEq (.int number)
    · simp [hid x hx, ih]
    · simpa using ih

/-- Filtering keeps the row under a key when the filter accepts that row. -/
theorem lookup_filter_keep (q : Row → Bool) {t : Table} {number : Int} {r : Row}
    (h : lookup t number = some r) (hq : q r = true) :
    lookup (t.filter q) number = some r := by
  induction t with
  | nil => simp [lookup] at h
  | cons x xs ih =>
    unfold lookup at ih h ⊢
    rw [List.find?_cons] at h
    cases hx : x.number.sqlEq (.int number)
    · rw [hx] at h
      cases hqx : q x
      · simpa [List.filter_cons, hqx] using ih h
      · simpa [List.filter_cons, hqx, List.find?_cons, hx] using ih h
    · rw [hx] at h
      cases h
      simp [List.filter_cons, hq, List.find?_cons, hx]

/-- Under the primary-key constraint two rows of a table with one key are the
same row. -/
theorem PrimaryKey.unique {t : Table} (hpk : PrimaryKey t) {x y : Row}
    (hx : x ∈ t) (hy : y ∈ t) (h : x.number = y.number) : x = y :=
  List.inj_on_of_nodup_map hpk hx hy h

/-! ## Lemmas on the store operations -/

theorem SetStatus_eq {w : World} {t : Table} (ht : w.db "parcel" = some t) (number : Int)
    (status : String) :
    SetStatus w number status
      = (none, { w with db := w.db.put "parcel" (t.map (statusRewrite number status)) }) := by
  simp only [SetStatus, Exec, ht]
  rfl

theorem SetAddress_eq {w : World} {t : Table} (ht : w.db "parcel" = some t) (number : Int)
    (address : String) :
    SetAddress w number address
      = (none, { w with db := w.db.put "parcel" (t.map (addressRewrite address)) }) := by
  simp only [SetAddress, Exec, ht]
  rfl

theorem Delete_eq {w : World} {t : Table} (ht : w.db "parcel" = some t) (number : Int) :
    Delete w number
      = (none, { w with db := (w.db.put "parcel"
          (t.filter (fun r => !r.status.sqlEq (.text ParcelStatusRegistered)))) }) := by
  simp only [Delete, Exec, ht]
  rfl

/-- The first row of a filtered list is the first row that passes. -/
theorem filter_head (q : Row → Bool) (t : Table) :
    (t.filter q).head? = t.find? q := by
  induction t with
  | nil => rfl
  | cons x xs ih =>
    cases hx : q x <;> simp [List.filter_cons, List.find?_cons, hx, ih]

/-- With the table present `Get` decodes the row stored under the key, and
reports `sql.ErrNoRows` when there is none. -/
theorem Get_eq {w : World} {t : Table} (ht : w.db "parcel" = some t) (number : Int) :
    Get w number =
      match lookup t number with
      | none => ({}, some .errNoRows)
      | some r => Scan r {} := by
  have hh := filter_head (fun r => r.number.sqlEq (.int number)) t
  unfold lookup
  rw [← hh]
  simp only [Get, QueryRowScan, Query, ht, Row.get]
  cases hf : t.filter (fun r => r.number.sqlEq (.int number)) with
  | nil => rfl
  | cons x xs =>
    simp only [List.head?_cons]
    cases hs : Scan x {} with
    | mk a b => cases b <;> rfl

/-- Decoding depends on the status column only through the `Status` field. -/
theorem Scan_set_status {r : Row} {p : Parcel} (status : String)
    (h : Scan r {} = (p, none)) :
    Scan { r with status := .text status } {} = ({ p with Status := status }, none) := by
  obtain ⟨n, c, s, a, d⟩ := r
  unfold Scan at h ⊢
  dsimp only at h ⊢
  cases hn : convertInt n <;> rw [hn] at h <;> simp at h
  cases hc : convertInt c <;> rw [hc] at h <;> simp at h
  cases hs : convertString s <;> rw [hs] at h <;> simp at h
  cases ha : convertString a <;> rw [ha] at h <;> simp at h
  cases hd : convertString d <;> rw [hd] at h <;> simp at h
  subst h
  simp only [hn, hc, ha, hd]
  rfl

theorem statusRewrite_number (number : Int) (status : String) (r : Row) :
    (statusRewrite number status r).number = r.number := by
  unfold statusRewrite
  split <;> rfl

theorem addressRewrite_number (address : String) (r : Row) :
    (addressRewrite address r).number = r.number := by
  unfold addressRewrite
  split <;> rfl

/-! ## The guarded operations on the targeted row -/

/-- C6: with the table `parcel` present and a row `r` stored under `number`,
`SetAddress number address` returns no error, and afterwards the row under
`number` is `r` with the new address when `r` was `registered`, and is `r`
itself when `r` was in any other status. -/
theorem SetAddress_changes_row_iff_registered (w : World) (t : Table) (r : Row)
    (number : Int) (address : String)
    (ht : w.db "parcel" = some t) (hr : lookup t number = some r) :
    (SetAddress w number address).1 = none ∧
    ∃ t', (SetAddress w number address).2.db "parcel" = some t' ∧
      (r.status = .text ParcelStatusRegistered →
        lookup t' number = some { r with address := .text address }) ∧
      (r.status ≠ .text ParcelStatusRegistered → lookup t' number = some r) := by
  rw [SetAddress_eq ht]
  refine ⟨rfl, _, put_same w.db "parcel" _, ?_, ?_⟩
  · intro hs
    rw [lookup_map _ (addressRewrite_number address), hr]
    simp [addressRewrite, (sqlEq_text_iff _ _).2 hs]
  · intro hs
    rw [lookup_map _ (addressRewrite_number address), hr]
    have hf : r.status.sqlEq (.text ParcelStatusRegistered) = false := by
      cases h : r.status.sqlEq (.text ParcelStatusRegistered)
      · rfl
      · exact absurd ((sqlEq_text_iff _ _).1 h) hs
    simp [addressRewrite, hf]

/-- C7: with the table `parcel` present, its keys unique and a row `r` stored
under `number`, `Delete number` returns no error, and afterwards no row is
stored under `number` when `r` was `registered`, and `r` itself is still
stored under `number` when `r` was in any other status. -/
theorem Delete_removes_row_iff_registered (w : World) (t : Table) (r : Row) (number : Int)
    (ht : w.db "parcel" = some t) (hpk : PrimaryKey t) (hr : lookup t number = some r) :
    (Delete w number).1 = none ∧
    ∃ t', (Delete w number).2.db "parcel" = some t' ∧
      (r.status = .text ParcelStatusRegistered → lookup t' number = none) ∧
      (r.status ≠ .text ParcelStatusRegistered → lookup t' number = some r) := by
  rw [Delete_eq ht]
  refine ⟨rfl, _, put_same w.db "parcel" _, ?_, ?_⟩
  · intro hs
    rw [lookup_eq_none]
    intro x hx hn
    obtain ⟨hxt, hq⟩ := List.mem_filter.1 hx
    have hxr : x = r := hpk.unique hxt (lookup_eq_some hr).1 (hn.trans (lookup_eq_some hr).2.symm)
    subst hxr
    simp [(sqlEq_text_iff _ _).2 hs] at hq
  · intro hs
    apply lookup_filter_keep _ hr
    cases h : r.status.sqlEq (.text ParcelStatusRegistered)
    · rfl
    · exact absurd ((sqlEq_text_iff _ _).1 h) hs

/-- C8: with the table `parcel` present and a row `r` stored under `number`
that `Get` decodes into the parcel `p`, `SetStatus number status`, for any
string `status`, returns no error; afterwards `Get number` returns without
error `p` with `Status` replaced by `status`, the stored row is `r` with only
its status column replaced, and the rows under every other key are the same as
before. -/
theorem SetStatus_updates_row (w : World) (t : Table) (r : Row) (p : Parcel) (number : Int)
    (status : String)
    (ht : w.db "parcel" = some t) (hr : lookup t number = some r)
    (hp : Scan r {} = (p, none)) :
    (SetStatus w number status).1 = none ∧
    Get (SetStatus w number status).2 number = ({ p with Status := status }, none) ∧
    ∃ t', (SetStatus w number status).2.db "parcel" = some t' ∧
      lookup t' number = some { r with status := .text status } ∧
      others t' number = others t number := by
  have hk : r.number.sqlEq (.int number) = true := (sqlEq_int_iff _ _).2 (lookup_eq_some hr).2
  have hl : lookup (t.map (statusRewrite number status)) number
      = some { r with status := .text status } := by
    rw [lookup_map _ (statusRewrite_number number status), hr]
    simp [statusRewrite, hk]
  rw [SetStatus_eq ht]
  refine ⟨rfl, ?_, _, put_same w.db "parcel" _, hl, ?_⟩
  · rw [Get_eq (put_same w.db "parcel" _), hl]
    exact Scan_set_status status hp
  · apply others_map _ _ (statusRewrite_number number status)
    intro x hx
    simp [statusRewrite, hx]

/-- C9: with the table `parcel` present and no row stored under `number`,
`Get number` returns the `sql.ErrNoRows` error (with the zero parcel), not a
success. -/
theorem Get_missing_is_no_rows (w : World) (t : Table) (number : Int)
    (ht : w.db "parcel" = some t) (hn : ∀ r ∈ t, r.number ≠ .int number) :
    Get w number = ({}, some .errNoRows) := by
  rw [Get_eq ht, lookup_eq_none.2 hn]

/-- C6 at a concrete state: key 2 of `mixedTable` holds a `registered` row. -/
theorem SetAddress_changes_row_iff_registered_witness :
    (worldOf mixedTable).db "parcel" = some mixedTable ∧
    lookup mixedTable 2 = some (registeredRow 2 7 "b") ∧
    (SetAddress (worldOf mixedTable) 2 "x").1 = none ∧
    ∃ t', (SetAddress (worldOf mixedTable) 2 "x").2.db "parcel" = some t' ∧
      ((registeredRow 2 7 "b").status = .text ParcelStatusRegistered →
        lookup t' 2 = some { registeredRow 2 7 "b" with address := .text "x" }) ∧
      ((registeredRow 2 7 "b").status ≠ .text ParcelStatusRegistered →
        lookup t' 2 = some (registeredRow 2 7 "b")) :=
  ⟨rfl, by decide,
    SetAddress_changes_row_iff_registered (worldOf mixedTable) mixedTable
      (registeredRow 2 7 "b") 2 "x" rfl (by decide)⟩

/-- C7 at a concrete state: key 1 of `mixedTable` holds a `sent` row. -/
theorem Delete_removes_row_iff_registered_witness :
    (worldOf mixedTable).db "parcel" = some mixedTable ∧
    PrimaryKey mixedTable ∧
    lookup mixedTable 1 = some (sentRow 1 7 "a") ∧
    (Delete (worldOf mixedTable) 1).1 = none ∧
    ∃ t', (Delete (worldOf mixedTable) 1).2.db "parcel" = some t' ∧
      ((sentRow 1 7 "a").status = .text ParcelStatusRegistered → lookup t' 1 = none) ∧
      ((sentRow 1 7 "a").status ≠ .text ParcelStatusRegistered →
        lookup t' 1 = some (sentRow 1 7 "a")) :=
  ⟨rfl, by decide, by decide,
    Delete_removes_row_iff_registered (worldOf mixedTable) mixedTable (sentRow 1 7 "a") 1
      rfl (by decide) (by decide)⟩

/-- C8 at a concrete state: the status of key 2 of `mixedTable` is set to a
string outside the known status codes. -/
theorem SetStatus_updates_row_witness :
    (worldOf mixedTable).db "parcel" = some mixedTable ∧
    lookup mixedTable 2 = some (registeredRow 2 7 "b") ∧
    Scan (registeredRow 2 7 "b") {}
      = (⟨2, 7, "registered", "b", "2024-01-01T00:00:00Z"⟩, none) ∧
    (SetStatus (worldOf mixedTable) 2 "lost").1 = none ∧
    Get (SetStatus (worldOf mixedTable) 2 "lost").2 2
      = (⟨2, 7, "lost", "b", "2024-01-01T00:00:00Z"⟩, none) ∧
    ∃ t', (SetStatus (worldOf mixedTable) 2 "lost").2.db "parcel" = some t' ∧
      lookup t' 2 = some { registeredRow 2 7 "b" with status := .text "lost" } ∧
      others t' 2 = others mixedTable 2 :=
  ⟨rfl, by decide, by decide,
    SetStatus_updates_row (worldOf mixedTable) mixedTable (registeredRow 2 7 "b")
      ⟨2, 7, "registered", "b", "2024-01-01T00:00:00Z"⟩ 2 "lost" rfl (by decide) (by decide)⟩

/-- C9 at a concrete state: no row of `mixedTable` is stored under key 5. -/
theorem Get_missing_is_no_rows_witness :
    (worldOf mixedTable).db "parcel" = some mixedTable ∧
    (∀ r ∈ mixedTable, r.number ≠ .int 5) ∧
    Get (worldOf mixedTable) 5 = ({}, some .errNoRows) :=
  ⟨rfl, by decide,
    Get_missing_is_no_rows (worldOf mixedTable) mixedTable 5 rfl (by decide)⟩

/-! ## Evaluations at concrete states -/

/-- The loop of `GetByClient` returns the result it started with and no error,
whatever the rows are. -/
theorem GetByClient_loop_discards (res : List Parcel) (rows : List Row) :
    GetByClient.loop res rows = (res, none) := by
  induction rows with
  | nil => rfl
  | cons row rest ih => simpa [GetByClient.loop, rowsErr] using ih

/-- No call of `GetByClient` returns a parcel. -/
theorem GetByClient_returns_nothing (w : World) (client : Int) :
    (GetByClient w client).1 = [] := by
  unfold GetByClient
  cases Query w.db ⟨"parcel", .client, .int client⟩ with
  | error e => rfl
  | ok rows =>
    show (GetByClient.loop [] rows).1 = []
    rw [GetByClient_loop_discards]

/-- The three mutating operations return no error in every state. -/
theorem mutations_return_nil (w : World) (number : Int) (s : String) :
    (SetStatus w number s).1 = none ∧ (SetAddress w number s).1 = none ∧
      (Delete w number).1 = none := by
  refine ⟨?_, ?_, ?_⟩
  · unfold SetStatus
    cases Exec w.db (.update "parcel" .status (.text s) .number (.int number)) <;> rfl
  · unfold SetAddress
    cases Exec w.db (.update "parcel" .address (.text s) .status
      (.text ParcelStatusRegistered)) <;> rfl
  · unfold Delete
    cases Exec w.db (.delete "parcel" .status (.text ParcelStatusRegistered)) <;> rfl

/-- The operation `Add` never changes the table `parcel`. -/
theorem Add_keeps_parcel (w : World) (p : Parcel) :
    (Add w p).2.db "parcel" = w.db "parcel" := by
  cases h : w.db "parsel" with
  | none => simp [Add, Exec, h]
  | some t => simp [Add, Exec, h, Result.LastInsertId, DB.put]

/-- C1: `SetAddress` evaluated on `registeredTable`: the call for key 1 returns
no error and rewrites the address of the `registered` row under key 2 as well,
so a row with a different number does not keep its address. -/
theorem SetAddress_rewrites_other_rows :
    lookup registeredTable 2 = some (registeredRow 2 8 "b") ∧
    (SetAddress (worldOf registeredTable) 1 "x").1 = none ∧
    (SetAddress (worldOf registeredTable) 1 "x").2.db "parcel"
      = some [registeredRow 1 7 "x", registeredRow 2 8 "x", sentRow 3 9 "c"] ∧
    lookup [registeredRow 1 7 "x", registeredRow 2 8 "x", sentRow 3 9 "c"] 2
      = some (registeredRow 2 8 "x") := by
  decide

/-- C2: `Delete` evaluated on `registeredTable`: the call for key 1 returns no
error and removes the `registered` row under key 2 as well, so a row with a
different number does not stay. -/
theorem Delete_removes_other_rows :
    lookup registeredTable 2 = some (registeredRow 2 8 "b") ∧
    (Delete (worldOf registeredTable) 1).1 = none ∧
    (Delete (worldOf registeredTable) 1).2.db "parcel" = some [sentRow 3 9 "c"] ∧
    lookup [sentRow 3 9 "c"] 2 = none := by
  decide

/-- C3: `Add` then `Get` evaluated on two states.  Where both tables `parsel`
and `parcel` exist and are empty, `Add` succeeds with identifier 1, the row
goes to `parsel`, and `Get 1` returns `sql.ErrNoRows`.  Where only `parcel`
exists, `Add` itself fails. -/
theorem Add_then_Get_finds_no_row :
    (Add worldBoth testParcel).1 = (1, none) ∧
    (Add worldBoth testParcel).2.db "parsel"
      = some [⟨.int 1, .int 1000, .text "registered", .text "test",
          .text "2024-01-01T00:00:00Z"⟩] ∧
    (Add worldBoth testParcel).2.db "parcel" = some [] ∧
    Get (Add worldBoth testParcel).2 1 = ({}, some .errNoRows) ∧
    (Add (worldOf []) testParcel).1 = (0, some (.noSuchTable "parsel")) := by
  decide

/-- C4: `GetByClient` evaluated on `registeredTable`: one row has client 7, the
query selects it, and the call returns the empty sequence without error. -/
theorem GetByClient_drops_matching_row :
    (registeredTable.filter (fun r => r.client.sqlEq (.int 7))) = [registeredRow 1 7 "a"] ∧
    GetByClient (worldOf registeredTable) 7 = ([], none) := by
  decide

/-- C5: the three mutating operations evaluated on a state without the table
`parcel`: each statement fails with `no such table`, each operation writes the
error to standard output and returns no error. -/
theorem mutations_swallow_failure :
    (∃ e, Exec worldEmpty.db (.update "parcel" .status (.text "sent") .number (.int 1))
      = .error e) ∧
    (∃ e, Exec worldEmpty.db (.update "parcel" .address (.text "x") .status
      (.text ParcelStatusRegistered)) = .error e) ∧
    (∃ e, Exec worldEmpty.db (.delete "parcel" .status (.text ParcelStatusRegistered))
      = .error e) ∧
    (SetStatus worldEmpty 1 "sent").1 = none ∧
    (SetAddress worldEmpty 1 "x").1 = none ∧
    (Delete worldEmpty 1).1 = none ∧
    (SetStatus worldEmpty 1 "sent").2.stdout = [(Error.noSuchTable "parcel").text] ∧
    (SetAddress worldEmpty 1 "x").2.stdout = [(Error.noSuchTable "parcel").text] ∧
    (Delete worldEmpty 1).2.stdout = [(Error.noSuchTable "parcel").text] :=
  ⟨⟨_, rfl⟩, ⟨_, rfl⟩, ⟨_, rfl⟩, rfl, rfl, rfl, by decide, by decide, by decide⟩

/-- C10: `GetByClient` evaluated on `nullStatusTable`: the only row has client
7 and NULL in its status column, decoding it fails, and the call returns
success with no row. -/
theorem GetByClient_ignores_decode_failure :
    (nullStatusTable.filter (fun r => r.client.sqlEq (.int 7))) = nullStatusTable ∧
    (Scan ⟨.int 1, .int 7, .null, .text "a", .text "2024-01-01T00:00:00Z"⟩ {}).2
      = some (.convertNull "string") ∧
    GetByClient (worldOf nullStatusTable) 7 = ([], none) := by
  decide

end ParcelStore
